import Mathlib

/-!
# Verification of the redditreadgo read-only Reddit client

Shallow embedding of the core retrieval pipeline of the `redditreadgo`
package (src/client.go, src/models.go, src/types.go): token acquisition and
refresh, the pre-request expiry guard, response decoding, listing
unwrapping, and cursor-based pagination.  Network effects are modelled by
passing the (decoded or raw) responses of the remote endpoints as explicit
oracle arguments; every function also reports the requests it issued, so
that request-counting properties can be stated.
-/

namespace RedditReadGo

/-- The `Submission` record, from src/types.go.  Go `*string` becomes
`Option String`, `float64` becomes `Float`, `int` becomes `Int`. -/
structure Submission where
  author : String := ""
  title : String := ""
  url : String := ""
  domain : String := ""
  subreddit : String := ""
  subredditID : String := ""
  fullID : String := ""
  id : String := ""
  permalink : String := ""
  selftext : String := ""
  selftextHTML : String := ""
  thumbnailURL : String := ""
  dateCreated : Float := 0.0
  numComments : Int := 0
  score : Int := 0
  ups : Int := 0
  downs : Int := 0
  isNSFW : Bool := false
  isSelf : Bool := false
  wasClicked : Bool := false
  isSaved : Bool := false
  bannedBy : Option String := none
  linkFlairText : String := ""

/-- Go `PopularitySort` is a string enum in the source. -/
abbrev PopularitySort := String

/-- Go `AgeSort` is a string enum in the source. -/
abbrev AgeSort := String

/-- Structure `SliceInfo`, from src/models.go: the cursor pair returned with a page. -/
structure SliceInfo where
  after : String := ""
  before : String := ""
deriving DecidableEq

/-- Structure `ListingOptions`, from src/models.go.  The Go field `Show` is named
`showOpt` here because `show` is a Lean keyword. -/
structure ListingOptions where
  region : String := ""
  limit : Int := 0
  after : String := ""
  before : String := ""
  count : Int := 0
  showOpt : String := ""
deriving DecidableEq

/-- Structure `TokenAsJSON`, from src/models.go: the token endpoint's parsed payload. -/
structure TokenAsJSON where
  accessToken : String := ""
  tokenType : String := ""
  refreshToken : String := ""
  expiresIn : Int := 0
deriving DecidableEq

/-- The `oauth2.Token` as used by client.go: the expiry instant is modelled as
an integer number of nanoseconds (Go `time.Time`). -/
structure Token where
  accessToken : String := ""
  tokenType : String := ""
  refreshToken : String := ""
  expiry : Int := 0
deriving DecidableEq

/-- The `http.Cookie` as used by client.go (only name and value matter). -/
structure Cookie where
  name : String := ""
  value : String := ""
deriving DecidableEq

/-- Structure `ReadOnlyRedditClient`, from src/client.go (logger and throttle are
omitted: they only produce debug output / pacing, which no claim is about). -/
structure ReadOnlyRedditClient where
  token : Token := {}
  cookie : Option Cookie := none
  clientID : String := ""
  clientSecret : String := ""
  userAgent : String := ""
deriving DecidableEq

/-- The listing envelope decoded by `SubmissionsTo` / `SubmissionsOf`:
one child of `Data.Children`.  Go `Data *Submission` becomes
`Option Submission`. -/
structure EnvelopeChild where
  kind : String := ""
  data : Option Submission := none

/-- The `Data` part of the listing envelope. -/
structure EnvelopeData where
  dist : Int := 0
  children : List EnvelopeChild := []
  after : String := ""
  before : String := ""

/-- The listing envelope `{kind, data:{dist, children, after, before}}`. -/
structure Envelope where
  kind : String := ""
  data : EnvelopeData := {}

/-- Constant `DefaultSliceSize`, from src/client.go. -/
def DefaultSliceSize : Int := 100

/-- A page-fetch function as consumed by `getAllSubmissions`: the `Nat`
argument indexes the request (the network may answer each request
differently), the result mirrors Go's `([]*Submission, *SliceInfo, error)`. -/
abbrev PageFn := Nat → ListingOptions → Except String (List (Option Submission) × SliceInfo)

/-- The `for {}` loop of `getAllSubmissions` (src/client.go): fetch a page
of `DefaultSliceSize` at cursor `after`, append it to `results`, stop when
`len(results) >= total` or the page was empty, otherwise follow the
returned `after` cursor.  The first component of the result is the list of
page requests issued (their `ListingOptions`), the second mirrors the Go
return value `([]*Submission, error)`. -/
def getAllSubmissionsLoop (fn : PageFn) (total : Int) (idx : Nat)
    (results : List (Option Submission)) (after : String) :
    List ListingOptions × Except String (List (Option Submission)) :=
  let opts : ListingOptions := { after := after, limit := DefaultSliceSize }
  match fn idx opts with
  | .error e => ([opts], .error e)
  | .ok (submissions, slice) =>
    if h : total ≤ ((results ++ submissions).length : Int) ∨ submissions.length = 0 then
      ([opts], .ok (results ++ submissions))
    else
      let rest := getAllSubmissionsLoop fn total (idx + 1) (results ++ submissions) slice.after
      (opts :: rest.1, rest.2)
termination_by (total - results.length).toNat
decreasing_by
  push_neg at h
  simp only [List.length_append] at h ⊢
  omega

/-- Function `getAllSubmissions`, from src/client.go: for `total ≤ DefaultSliceSize`
a single page request with `limit = total`; otherwise the pagination loop
starting from the empty cursor. -/
def getAllSubmissions (fn : PageFn) (total : Int) :
    List ListingOptions × Except String (List (Option Submission)) :=
  if total ≤ DefaultSliceSize then
    let opts : ListingOptions := { limit := total }
    match fn 0 opts with
    | .error e => ([opts], .error e)
    | .ok (submissions, _) => ([opts], .ok submissions)
  else
    getAllSubmissionsLoop fn total 0 [] ""

/-- Function `SubmissionsTo`, from src/client.go: validates the subreddit, then
unwraps the decoded listing envelope into one record per child plus the
cursor pair.  The `response` argument stands for the outcome of
`doGetRequest` on the built query URL (URL building and HTTP transport
carry no data relevant to the envelope unwrapping). -/
def SubmissionsTo (subreddit : String) (_sort : PopularitySort) (_age : AgeSort)
    (_params : ListingOptions) (response : Except String Envelope) :
    Except String (List (Option Submission) × SliceInfo) :=
  if subreddit.length = 0 then .error "subreddit cannot be null nor empty"
  else
    match response with
    | .error e => .error e
    | .ok r =>
      .ok (r.data.children.map (fun child => child.data),
           { before := r.data.before, after := r.data.after })

/-- Function `SubmissionsOf`, from src/client.go: same shape as `SubmissionsTo`, for
the author listing (the `limit > 100` case only emits a debug log). -/
def SubmissionsOf (author : String) (_sort : PopularitySort) (_age : AgeSort)
    (_params : ListingOptions) (response : Except String Envelope) :
    Except String (List (Option Submission) × SliceInfo) :=
  if author.length = 0 then .error "author cannot be null nor empty"
  else
    match response with
    | .error e => .error e
    | .ok r =>
      .ok (r.data.children.map (fun child => child.data),
           { before := r.data.before, after := r.data.after })

/-- The network oracle for the content endpoint: the decoded envelope (or
transport error) answering the `i`-th page request with the given options. -/
abbrev ListingNet := Nat → ListingOptions → Except String Envelope

/-- Function `AllSubmissionsTo`, from src/client.go: delegates to
`getAllSubmissions` with `SubmissionsTo` as the page-fetch function. -/
def AllSubmissionsTo (subreddit : String) (sort : PopularitySort) (age : AgeSort)
    (total : Int) (net : ListingNet) :
    List ListingOptions × Except String (List (Option Submission)) :=
  getAllSubmissions (fun i opts => SubmissionsTo subreddit sort age opts (net i opts)) total

/-- Function `AllSubmissionsOf`, from src/client.go: delegates to
`getAllSubmissions` with `SubmissionsOf` as the page-fetch function. -/
def AllSubmissionsOf (author : String) (sort : PopularitySort) (age : AgeSort)
    (total : Int) (net : ListingNet) :
    List ListingOptions × Except String (List (Option Submission)) :=
  getAllSubmissions (fun i opts => SubmissionsOf author sort age opts (net i opts)) total

/-! ## The token endpoint (`retrieveTokenAndCookie`, `loginAuth`, `refreshLoginAuth`) -/

/-- A decoded response of the token endpoint, as seen by
`retrieveTokenAndCookie`:  the HTTP status code, the outcome of
`mime.ParseMediaType` on the Content-Type header, the outcome of reading
the (1 MiB-capped) body and `json.Unmarshal`-ing it into `TokenAsJSON`,
and the response cookies. -/
structure TokenResponse where
  statusCode : Int := 200
  contentType : Except String String := .ok "application/json"
  body : Except String TokenAsJSON := .ok {}
  cookies : List Cookie := []

/-- Go `url.Values.Get`: the first value stored under the key, or `""`. -/
def urlValuesGet (values : List (String × String)) (key : String) : String :=
  match values.find? (fun p => p.1 = key) with
  | some p => p.2
  | none => ""

/-- Function `retrieveTokenAndCookie`, from src/client.go: validate status and
content type, decode the body into `TokenAsJSON`, build the `oauth2.Token`
with expiry `now + ExpiresIn` seconds, fall back to the refresh token sent
in the request `values` when the response omitted one, reject a missing
access token, and pick the first cookie named `edgebucket`.  (On a missing
access token Go returns the token alongside the error; callers check the
error first, so the `Except` model drops it.) -/
def retrieveTokenAndCookie (values : List (String × String)) (now : Int)
    (resp : TokenResponse) : Except String (Token × Option Cookie) :=
  if resp.statusCode < 200 ∨ 299 < resp.statusCode then
    .error "oauth2: cannot fetch token"
  else
    match resp.contentType with
    | .error e => .error e
    | .ok contentType =>
      if contentType ≠ "application/json" then
        .error ("unknown response content type: " ++ contentType)
      else
        match resp.body with
        | .error e => .error e
        | .ok tokenAsJSON =>
          let token0 : Token :=
            { accessToken := tokenAsJSON.accessToken
              tokenType := tokenAsJSON.tokenType
              refreshToken := tokenAsJSON.refreshToken
              expiry := now + tokenAsJSON.expiresIn * 1000000000 }
          let token :=
            if token0.refreshToken.length = 0 then
              { token0 with refreshToken := urlValuesGet values "refresh_token" }
            else token0
          if token.accessToken.length = 0 then
            .error "oauth2: server response missing access_token"
          else
            .ok (token, resp.cookies.find? (fun cookie => cookie.name = "edgebucket"))

/-- Function `loginAuth`, from src/client.go: client-credentials grant; on success
both `Token` and `Cookie` are replaced, on error the client is returned
unchanged together with the error (Go mutates nothing on the error path). -/
def loginAuth (c : ReadOnlyRedditClient) (now : Int) (resp : TokenResponse) :
    ReadOnlyRedditClient × Option String :=
  match retrieveTokenAndCookie [("grant_type", "client_credentials")] now resp with
  | .error e => (c, some e)
  | .ok (token, cookie) => ({ c with token := token, cookie := cookie }, none)

/-- Function `refreshLoginAuth`, from src/client.go: fails immediately when no
refresh token is stored, otherwise performs a refresh-token grant.  The
first component lists the token-endpoint requests issued (their form
values), so that "no network call" is an inspectable fact. -/
def refreshLoginAuth (c : ReadOnlyRedditClient) (now : Int) (resp : TokenResponse) :
    List (List (String × String)) × ReadOnlyRedditClient × Option String :=
  if c.token.refreshToken.length = 0 then
    ([], c, some "oauth2: token expired and refresh token is not set")
  else
    let values := [("grant_type", "refresh_token"),
                   ("refresh_token", c.token.refreshToken)]
    match retrieveTokenAndCookie values now resp with
    | .error e => ([values], c, some e)
    | .ok (token, cookie) =>
      ([values], { c with token := token, cookie := cookie }, none)

/-! ## JSON decoding model (for the 1 MiB body cap of `doGetRequest`)

`encoding/json.Unmarshal` is standard-library code, not part of this
repository; it is modelled by a syntactic JSON validity check: `Unmarshal`
fails on input that is not a single well-formed JSON document (for the
listing envelope target the document is an object and unknown object
members are ignored, so syntactic validity is what decides success). -/

/-- JSON whitespace. -/
def isJsonWs (c : Char) : Bool := c = ' ' || c = '\t' || c = '\n' || c = '\r'

/-- Drop leading JSON whitespace. -/
def skipWs : List Char → List Char
  | [] => []
  | c :: rest => if isJsonWs c then skipWs rest else c :: rest

/-- Scan a JSON string body (the opening quote already consumed); returns
the input after the closing quote. -/
def scanString : List Char → Option (List Char)
  | [] => none
  | '"' :: rest => some rest
  | '\\' :: _ :: rest => scanString rest
  | _ :: rest => scanString rest

/-- Characters that may occur in a JSON number after its first character. -/
def isNumChar (c : Char) : Bool :=
  c.isDigit || c = '-' || c = '+' || c = '.' || c = 'e' || c = 'E'

/-- Scan the remainder of a JSON number. -/
def scanNumber : List Char → List Char
  | [] => []
  | c :: rest => if isNumChar c then scanNumber rest else c :: rest

/-- Parsing mode: a value, the members of an object (after `{`, known
non-empty), or the elements of an array (after `[`, known non-empty). -/
inductive JMode where
  | value : JMode
  | members : JMode
  | elements : JMode

/-- Fuel-indexed recursive-descent JSON parser; returns the unconsumed
input on success. -/
def parseJ : Nat → JMode → List Char → Option (List Char)
  | 0, _, _ => none
  | fuel + 1, .value, s =>
    match skipWs s with
    | '{' :: rest =>
      (match skipWs rest with
       | '}' :: rest2 => some rest2
       | _ => parseJ fuel .members rest)
    | '[' :: rest =>
      (match skipWs rest with
       | ']' :: rest2 => some rest2
       | _ => parseJ fuel .elements rest)
    | '"' :: rest => scanString rest
    | 't' :: 'r' :: 'u' :: 'e' :: rest => some rest
    | 'f' :: 'a' :: 'l' :: 's' :: 'e' :: rest => some rest
    | 'n' :: 'u' :: 'l' :: 'l' :: rest => some rest
    | c :: rest => if c.isDigit || c = '-' then some (scanNumber rest) else none
    | [] => none
  | fuel + 1, .members, s =>
    match skipWs s with
    | '"' :: rest =>
      (match scanString rest with
       | none => none
       | some rest1 =>
         match skipWs rest1 with
         | ':' :: rest2 =>
           (match parseJ fuel .value rest2 with
            | none => none
            | some rest3 =>
              match skipWs rest3 with
              | ',' :: rest4 => parseJ fuel .members rest4
              | '}' :: rest4 => some rest4
              | _ => none)
         | _ => none)
    | _ => none
  | fuel + 1, .elements, s =>
    match parseJ fuel .value s with
    | none => none
    | some rest =>
      match skipWs rest with
      | ',' :: rest2 => parseJ fuel .elements rest2
      | ']' :: rest2 => some rest2
      | _ => none

/-- A byte sequence is a single well-formed JSON document. -/
def jsonValid (s : List Char) : Bool :=
  match parseJ (s.length + 1) .value s with
  | some rest => (skipWs rest).isEmpty
  | none => false

/-- Model of `json.Unmarshal` for `doGetRequest`'s generic target: succeeds
exactly on a well-formed JSON document; the decoded value is modelled as
the document itself. -/
def jsonUnmarshal (s : List Char) : Except String (List Char) :=
  if jsonValid s then .ok s else .error "invalid JSON"

/-! ## `doGetRequest` -/

/-- The 5-second safety margin of the expiry check in `doGetRequest`, in
nanoseconds (`time.Now().Add(5 * time.Second)`). -/
def safetyMarginNs : Int := 5 * 1000000000

/-- Go `time.Time.Before`: strict `<` on instants. -/
def timeBefore (a b : Int) : Bool := a < b

/-- A response of the content endpoint as seen by `doGetRequest`: status,
`mime.ParseMediaType` outcome, whether the gzip reader could be opened,
and the decompressed body bytes (as characters). -/
structure ApiResponse where
  statusCode : Int := 200
  contentType : Except String String := .ok "application/json"
  bodyGzipOk : Bool := true
  body : List Char := []

/-- Function `doGetRequest`, from src/client.go (throttling and header assembly
omitted: they carry no data any claim is about).  Before the request the
token expiry is checked against `now + 5s`; an expiring token triggers a
synchronous `refreshLoginAuth` (answered by the `refreshResp` oracle) and
a refresh failure aborts the request.  The response is then validated
(2xx status, `application/json` content type, gzip), its body read through
`io.LimitReader(…, 1<<20)` — i.e. truncated to the first 1 MiB — and
decoded by `unmarshal` (the model of `json.Unmarshal` into the target).
Returns (whether a refresh was triggered, the client afterwards, the
outcome). -/
def doGetRequest (c : ReadOnlyRedditClient) (now : Int)
    (refreshResp : TokenResponse) (resp : ApiResponse)
    (unmarshal : List Char → Except String α) :
    Bool × ReadOnlyRedditClient × Except String α :=
  let refreshed :=
    if timeBefore c.token.expiry (now + safetyMarginNs) then
      let r := refreshLoginAuth c now refreshResp
      (true, r.2.1, r.2.2)
    else (false, c, none)
  match refreshed with
  | (didRefresh, c2, some e) => (didRefresh, c2, .error e)
  | (didRefresh, c2, none) =>
    if resp.statusCode < 200 ∨ 299 < resp.statusCode then
      (didRefresh, c2, .error "cannot do get request, bad status")
    else
      match resp.contentType with
      | .error e => (didRefresh, c2, .error e)
      | .ok contentType =>
        if contentType ≠ "application/json" then
          (didRefresh, c2, .error ("unknown response content type: " ++ contentType))
        else if ¬ resp.bodyGzipOk then
          (didRefresh, c2, .error "gzip: invalid header")
        else
          let responseBody := resp.body.take (1 <<< 20)
          match unmarshal responseBody with
          | .error e => (didRefresh, c2, .error e)
          | .ok d => (didRefresh, c2, .ok d)

/-! ## Concrete fixtures used by witnesses and counterexamples -/

/-- An envelope with 100 children: a full page of a non-exhausted listing. -/
def envFull : Envelope :=
  { kind := "Listing"
    data := { dist := 100, children := List.replicate 100 { kind := "t3", data := none },
              after := "t3_next", before := "" } }

/-- A network oracle answering every page request with a full page. -/
def netFull : ListingNet := fun _ _ => .ok envFull

/-- A network oracle answering one full page, then failing. -/
def netErrAfterOne : ListingNet := fun i _ =>
  if i < 1 then .ok envFull else .error "boom"

/-- The envelope of the spec scenario: five children, cursor after
`t3_abc`. -/
def envFive : Envelope :=
  { kind := "Listing"
    data := { dist := 5, children := List.replicate 5 { kind := "t3", data := none },
              after := "t3_abc", before := "" } }

/-- A network oracle always answering with `envFive`. -/
def netFive : ListingNet := fun _ _ => .ok envFive

/-- A page function answering every request with a full page. -/
def fnFull : PageFn := fun _ _ =>
  .ok (List.replicate 100 none, { after := "t3_next", before := "" })

/-- A client whose token expires exactly at `now + 5s` (for `now = 0`). -/
def clientBoundary : ReadOnlyRedditClient :=
  { token := { accessToken := "a", tokenType := "bearer", refreshToken := "r",
               expiry := 5000000000 } }

/-- A client whose token is far from expiring. -/
def clientFresh : ReadOnlyRedditClient :=
  { token := { accessToken := "a", tokenType := "bearer", refreshToken := "r",
               expiry := 1000000000000000000 } }

/-- A client with no stored refresh token. -/
def clientNoRefresh : ReadOnlyRedditClient :=
  { token := { accessToken := "a", tokenType := "bearer", refreshToken := "",
               expiry := 0 } }

/-- A client holding a previously-obtained refresh token. -/
def clientOldRefresh : ReadOnlyRedditClient :=
  { token := { accessToken := "old", tokenType := "bearer", refreshToken := "oldr",
               expiry := 0 } }

/-- A token-endpoint response whose payload omits the refresh token. -/
def respNoRefreshToken : TokenResponse :=
  { body := .ok { accessToken := "new", tokenType := "bearer", refreshToken := "",
                  expiresIn := 3600 } }

/-- A failing token-endpoint response. -/
def respBad : TokenResponse := { statusCode := 500 }

/-- A successful token-endpoint response with token and cookie. -/
def respGood : TokenResponse :=
  { body := .ok { accessToken := "new", tokenType := "bearer", refreshToken := "nr",
                  expiresIn := 60 },
    cookies := [{ name := "edgebucket", value := "nv" }] }

/-- The token `respGood` produces at `now = 0`. -/
def tokenGood : Token :=
  { accessToken := "new", tokenType := "bearer", refreshToken := "nr",
    expiry := 0 + 60 * 1000000000 }

/-- The cookie `respGood` produces. -/
def cookieGood : Cookie := { name := "edgebucket", value := "nv" }

/-- One mebibyte, the `1<<20` cap of `io.LimitReader` in src/client.go. -/
def oneMiB : Nat := 1 <<< 20

/-- A response body longer than 1 MiB whose first 1 MiB is a well-formed
JSON document (1 MiB - 2 spaces, an empty object, then garbage). -/
def oversBody : List Char :=
  List.replicate (oneMiB - 2) ' ' ++ ['{', '}'] ++ ['X', 'X', 'X', 'X']

/-! ## Pagination lemmas -/

/-- When every page request is answered with exactly 100 records, the loop
from an accumulator shorter than `total` issues
`ceil((total - |results|) / 100)` further requests and returns an
accumulator grown by 100 records per request. -/
theorem loop_full_pages (fn : PageFn) (total : Int)
    (hfull : ∀ i opts, ∃ page slice, fn i opts = .ok (page, slice) ∧ page.length = 100) :
    ∀ fuel idx results after, (results.length : Int) < total →
      total.toNat - results.length ≤ fuel →
      (getAllSubmissionsLoop fn total idx results after).1.length
          = (total.toNat - results.length + 99) / 100 ∧
      ∃ res, (getAllSubmissionsLoop fn total idx results after).2 = .ok res ∧
        res.length = results.length + 100 * ((total.toNat - results.length + 99) / 100) := by
  intro fuel
  induction fuel with
  | zero =>
    intro idx results after h1 h2
    omega
  | succ fuel ih =>
    intro idx results after h1 h2
    obtain ⟨page, slice, hfn, hlen⟩ := hfull idx { after := after, limit := DefaultSliceSize }
    rw [getAllSubmissionsLoop]
    simp only [hfn]
    by_cases hc : total ≤ (((results ++ page).length : Nat) : Int) ∨ page.length = 0
    · rw [dif_pos hc]
      simp only [List.length_append, hlen] at hc
      rcases hc with hc | hc
      · push_cast at hc
        refine ⟨?_, results ++ page, rfl, ?_⟩
        · simp only [List.length_singleton]
          omega
        · simp only [List.length_append, hlen]
          omega
      · omega
    · rw [dif_neg hc]
      push_neg at hc
      obtain ⟨hc1, hc2⟩ := hc
      simp only [List.length_append, hlen] at hc1
      push_cast at hc1
      have ih2 := ih (idx + 1) (results ++ page) slice.after
        (by simp only [List.length_append, hlen]; push_cast; omega)
        (by simp only [List.length_append, hlen]; omega)
      simp only [List.length_append, hlen] at ih2
      obtain ⟨ihlog, res, ihres, ihlen⟩ := ih2
      refine ⟨?_, res, by simpa using ihres, ?_⟩
      · simp only [List.length_cons, ihlog]
        omega
      · omega

/-- The loop issues at most `total - |results|` page requests: every
request but the last adds at least one record to the accumulator. -/
theorem loop_length_le (fn : PageFn) (total : Int) :
    ∀ fuel idx results after, (results.length : Int) < total →
      total.toNat - results.length ≤ fuel →
      (getAllSubmissionsLoop fn total idx results after).1.length
        ≤ total.toNat - results.length := by
  intro fuel
  induction fuel with
  | zero =>
    intro idx results after h1 h2
    omega
  | succ fuel ih =>
    intro idx results after h1 h2
    rw [getAllSubmissionsLoop]
    rcases hfn : fn idx { after := after, limit := DefaultSliceSize } with e | ⟨page, slice⟩
    · simp only [List.length_singleton]
      omega
    · simp only
      by_cases hc : total ≤ (((results ++ page).length : Nat) : Int) ∨ page.length = 0
      · rw [dif_pos hc]
        simp only [List.length_singleton]
        omega
      · rw [dif_neg hc]
        push_neg at hc
        obtain ⟨hc1, hc2⟩ := hc
        simp only [List.length_append] at hc1
        push_cast at hc1
        have ih2 := ih (idx + 1) (results ++ page) slice.after
          (by simp only [List.length_append]; push_cast; omega)
          (by simp only [List.length_append]; omega)
        simp only [List.length_append] at ih2
        simp only [List.length_cons]
        omega

/-- Every page request of the loop except possibly the last one was
answered successfully with a non-empty page: the loop stops at the first
error or empty page. -/
theorem loop_mid_ok (fn : PageFn) (total : Int) :
    ∀ fuel idx results after, (results.length : Int) < total →
      total.toNat - results.length ≤ fuel →
      ∀ i, i + 1 < (getAllSubmissionsLoop fn total idx results after).1.length →
        ∃ p s, fn (idx + i) ((getAllSubmissionsLoop fn total idx results after).1.getD i {})
            = .ok (p, s) ∧ p ≠ [] := by
  intro fuel
  induction fuel with
  | zero =>
    intro idx results after h1 h2
    omega
  | succ fuel ih =>
    intro idx results after h1 h2 i hi
    rw [getAllSubmissionsLoop] at hi ⊢
    rcases hfn : fn idx { after := after, limit := DefaultSliceSize } with e | ⟨page, slice⟩
    · rw [hfn] at hi
      simp only [List.length_singleton] at hi
      omega
    · rw [hfn] at hi
      simp only at hi ⊢
      by_cases hc : total ≤ (((results ++ page).length : Nat) : Int) ∨ page.length = 0
      · rw [dif_pos hc] at hi
        simp only [List.length_singleton] at hi
        omega
      · rw [dif_neg hc] at hi ⊢
        push_neg at hc
        obtain ⟨hc1, hc2⟩ := hc
        simp only [List.length_append] at hc1
        push_cast at hc1
        match i with
        | 0 =>
          simp only [List.getD_cons_zero, Nat.add_zero]
          exact ⟨page, slice, hfn, by intro hnil; rw [hnil] at hc2; simp at hc2⟩
        | j + 1 =>
          simp only [List.getD_cons_succ]
          simp only [List.length_cons] at hi
          have ih2 := ih (idx + 1) (results ++ page) slice.after
            (by simp only [List.length_append]; push_cast; omega)
            (by simp only [List.length_append]; omega)
            j (by omega)
          have harith : idx + 1 + j = idx + (j + 1) := by omega
          rw [harith] at ih2
          exact ih2

/-- When requests before index `k` are answered with full pages and the
request at index `k` fails, the loop entered at index `idx ≤ k` (with an
accumulator too short to stop earlier) issues `k - idx + 1` requests and
returns that error alone — the accumulated records are discarded. -/
theorem loop_error_at (fn : PageFn) (total : Int) (k : Nat) (e : String)
    (hok : ∀ i opts, i < k → ∃ page slice, fn i opts = .ok (page, slice) ∧ page.length = 100)
    (herr : ∀ i opts, k ≤ i → fn i opts = .error e) :
    ∀ fuel idx results after, k - idx ≤ fuel → idx ≤ k →
      (results.length : Int) + 100 * (((k - idx : Nat) : Nat) : Int) < total →
      (getAllSubmissionsLoop fn total idx results after).1.length = k - idx + 1 ∧
      (getAllSubmissionsLoop fn total idx results after).2 = .error e := by
  intro fuel
  induction fuel with
  | zero =>
    intro idx results after hf hik hlt
    have hik' : idx = k := by omega
    subst hik'
    rw [getAllSubmissionsLoop]
    rw [herr idx { after := after, limit := DefaultSliceSize } le_rfl]
    simp
  | succ fuel ih =>
    intro idx results after hf hik hlt
    by_cases hk : idx = k
    · subst hk
      rw [getAllSubmissionsLoop]
      rw [herr idx { after := after, limit := DefaultSliceSize } le_rfl]
      simp
    · have hik2 : idx < k := by omega
      obtain ⟨page, slice, hfn, hlen⟩ := hok idx { after := after, limit := DefaultSliceSize } hik2
      rw [getAllSubmissionsLoop]
      simp only [hfn]
      have hnot : ¬ (total ≤ (((results ++ page).length : Nat) : Int) ∨ page.length = 0) := by
        push_neg
        constructor
        · simp only [List.length_append, hlen]
          push_cast
          omega
        · omega
      rw [dif_neg hnot]
      have ih2 := ih (idx + 1) (results ++ page) slice.after
        (by omega) (by omega)
        (by simp only [List.length_append, hlen]; push_cast; omega)
      obtain ⟨ihlog, ihres⟩ := ih2
      refine ⟨?_, ihres⟩
      simp only [List.length_cons, ihlog]
      omega

/-! ## Lemmas about the 1 MiB body cap and JSON decoding -/

/-- Skipping whitespace ignores leading spaces. -/
theorem skipWs_replicate_space (n : Nat) (s : List Char) :
    skipWs (List.replicate n ' ' ++ s) = skipWs s := by
  induction n with
  | zero => simp
  | succ n ih => simp [List.replicate_succ, skipWs, isJsonWs, ih]

/-- The empty JSON object consumes exactly two characters. -/
theorem parseJ_braces (f : Nat) (s : List Char) :
    parseJ (f + 1) .value ('{' :: '}' :: s) = some s := rfl

/-- Value parsing ignores leading spaces. -/
theorem parseJ_value_dropWs (f n : Nat) (s : List Char) :
    parseJ (f + 1) .value (List.replicate n ' ' ++ s) = parseJ (f + 1) .value s := by
  simp only [parseJ, skipWs_replicate_space]

/-- A run of spaces followed by `{}` is a well-formed JSON document. -/
theorem jsonValid_ws_braces (n : Nat) :
    jsonValid (List.replicate n ' ' ++ ['{', '}']) = true := by
  unfold jsonValid
  simp only [List.length_append, List.length_replicate, List.length_cons, List.length_nil]
  rw [parseJ_value_dropWs (n + 2) n ['{', '}']]
  rw [parseJ_braces]
  simp [skipWs]

theorem oneMiB_val : oneMiB = 1048576 := by decide

theorem oversBody_def :
    oversBody = List.replicate (oneMiB - 2) ' ' ++ ['{', '}'] ++ ['X', 'X', 'X', 'X'] := rfl

/-- The oversized body exceeds the 1 MiB cap. -/
theorem oversBody_length : (1 <<< 20) < oversBody.length := by
  rw [oversBody_def]
  rw [List.length_append, List.length_append, List.length_replicate]
  have h1 : oneMiB = 1048576 := oneMiB_val
  have h2 : (1 <<< 20 : Nat) = 1048576 := by decide
  simp only [List.length_cons, List.length_nil]
  omega

/-- Reading the oversized body through the 1 MiB cap keeps exactly its
well-formed JSON prefix. -/
theorem oversBody_take :
    oversBody.take (1 <<< 20) = List.replicate (oneMiB - 2) ' ' ++ ['{', '}'] := by
  rw [oversBody_def, List.append_assoc, List.take_append_eq_append_take]
  rw [List.length_replicate]
  have h1 : oneMiB = 1048576 := oneMiB_val
  have h2 : (1 <<< 20 : Nat) = 1048576 := by decide
  rw [List.take_of_length_le (by rw [List.length_replicate]; omega)]
  congr 1

/-- A run of spaces, an empty object, then garbage is not a well-formed
JSON document. -/
theorem jsonValid_ws_braces_garbage (n : Nat) :
    jsonValid (List.replicate n ' '
      ++ ('{' :: '}' :: 'X' :: 'X' :: 'X' :: 'X' :: [])) = false := by
  unfold jsonValid
  simp only [List.length_append, List.length_replicate, List.length_cons, List.length_nil]
  rw [parseJ_value_dropWs]
  rw [parseJ_braces]
  simp [skipWs, isJsonWs]

/-- The oversized body as a whole is not a well-formed JSON document: the
trailing garbage makes it invalid, so `json.Unmarshal` would reject it if
it ever saw it. -/
theorem jsonValid_oversBody : jsonValid oversBody = false := by
  have h := jsonValid_ws_braces_garbage (oneMiB - 2)
  rw [oversBody_def, List.append_assoc]
  exact h

/-- After the expiry guard passes and the response validates, the outcome
of `doGetRequest` is exactly the decoding of the body truncated to its
first 1 MiB: nothing records that the body was longer. -/
theorem doGetRequest_decode {α : Type} (c : ReadOnlyRedditClient) (now : Int)
    (rt : TokenResponse) (resp : ApiResponse) (um : List Char → Except String α)
    (hexp : timeBefore c.token.expiry (now + safetyMarginNs) = false)
    (hst : ¬(resp.statusCode < 200 ∨ 299 < resp.statusCode))
    (hct : resp.contentType = Except.ok "application/json")
    (hgz : resp.bodyGzipOk = true) :
    (doGetRequest c now rt resp um).2.2 = um (resp.body.take (1 <<< 20)) := by
  rw [doGetRequest]
  rw [hexp]
  simp only [Bool.false_eq_true, if_false]
  rw [if_neg hst, hct]
  simp only [ne_eq, not_true_eq_false, if_false, hgz, not_true, ite_false]
  rcases hum : um (resp.body.take (1 <<< 20)) with e | d <;> simp [hum]

/-- The refresh flag of `doGetRequest` equals the expiry test
`expiry < now + 5s`, whatever else happens downstream. -/
theorem doGetRequest_fst {α : Type} (c : ReadOnlyRedditClient) (now : Int)
    (rt : TokenResponse) (resp : ApiResponse) (um : List Char → Except String α) :
    (doGetRequest c now rt resp um).1
      = timeBefore c.token.expiry (now + safetyMarginNs) := by
  rw [doGetRequest]
  by_cases hexp : timeBefore c.token.expiry (now + safetyMarginNs)
  · rw [hexp]
    simp only [if_true]
    repeat' split
    all_goals (first | rfl | simp_all)
  · simp only [hexp]
    simp only [Bool.false_eq_true, if_false]
    repeat' split
    all_goals (first | rfl | simp_all)

/-- When the token is not within the safety margin, `doGetRequest` leaves
the client state untouched. -/
theorem doGetRequest_not_expiring {α : Type} (c : ReadOnlyRedditClient) (now : Int)
    (rt : TokenResponse) (resp : ApiResponse) (um : List Char → Except String α)
    (hexp : timeBefore c.token.expiry (now + safetyMarginNs) = false) :
    (doGetRequest c now rt resp um).2.1 = c := by
  rw [doGetRequest, hexp]
  simp only [Bool.false_eq_true, if_false]
  repeat' split
  all_goals (first | rfl | simp_all)

/-! ## Page-function lemmas -/

/-- A network of full envelopes makes `SubmissionsTo` a full-page
function. -/
theorem pageFnTo_full (subreddit : String) (sort : PopularitySort) (age : AgeSort)
    (net : ListingNet) (hsub : subreddit.length ≠ 0)
    (hnet : ∀ i opts, ∃ env, net i opts = .ok env ∧ env.data.children.length = 100) :
    ∀ i opts, ∃ page slice,
      SubmissionsTo subreddit sort age opts (net i opts) = .ok (page, slice) ∧
      page.length = 100 := by
  intro i opts
  obtain ⟨env, hn, hlen⟩ := hnet i opts
  refine ⟨env.data.children.map (fun child => child.data),
    { before := env.data.before, after := env.data.after }, ?_, ?_⟩
  · rw [hn]
    simp [SubmissionsTo, hsub]
  · simp [List.length_map, hlen]

/-- A network of full envelopes makes `SubmissionsOf` a full-page
function. -/
theorem pageFnOf_full (author : String) (sort : PopularitySort) (age : AgeSort)
    (net : ListingNet) (hauth : author.length ≠ 0)
    (hnet : ∀ i opts, ∃ env, net i opts = .ok env ∧ env.data.children.length = 100) :
    ∀ i opts, ∃ page slice,
      SubmissionsOf author sort age opts (net i opts) = .ok (page, slice) ∧
      page.length = 100 := by
  intro i opts
  obtain ⟨env, hn, hlen⟩ := hnet i opts
  refine ⟨env.data.children.map (fun child => child.data),
    { before := env.data.before, after := env.data.after }, ?_, ?_⟩
  · rw [hn]
    simp [SubmissionsOf, hauth]
  · simp [List.length_map, hlen]

/-- When the token endpoint answers successfully but its payload has an
empty `refresh_token`, the built token takes the refresh token sent in
the request form values. -/
theorem retrieveTokenAndCookie_empty_refresh (values : List (String × String)) (now : Int)
    (resp : TokenResponse) (tj : TokenAsJSON)
    (hst : ¬(resp.statusCode < 200 ∨ 299 < resp.statusCode))
    (hct : resp.contentType = .ok "application/json")
    (hbody : resp.body = .ok tj)
    (hempty : tj.refreshToken = "")
    (hat : tj.accessToken.length ≠ 0) :
    retrieveTokenAndCookie values now resp
      = .ok ({ accessToken := tj.accessToken, tokenType := tj.tokenType,
               refreshToken := urlValuesGet values "refresh_token",
               expiry := now + tj.expiresIn * 1000000000 },
             resp.cookies.find? (fun cookie => cookie.name = "edgebucket")) := by
  unfold retrieveTokenAndCookie
  rw [if_neg hst, hct]
  simp only [ne_eq, not_true_eq_false, if_false, hbody, hempty, ite_false]
  simp [hat]

/-! ## The claims -/

/-- C1 (amended): for every `total` greater than the page size (100) and
a non-exhausted listing — every page request answered with a full page of
100 records — `AllSubmissionsTo` issues `ceil(total/100)` page requests
and the returned concatenation has length `100 * ceil(total/100)`, which
is at least `total` and exceeds it whenever `total` is not a multiple of
100 (the code appends whole pages and never trims to `total`). -/
theorem C1_pagination_full_pages (subreddit : String) (sort : PopularitySort)
    (age : AgeSort) (total : Int) (net : ListingNet)
    (hsub : subreddit.length ≠ 0) (htotal : DefaultSliceSize < total)
    (hnet : ∀ i opts, ∃ env, net i opts = .ok env ∧ env.data.children.length = 100) :
    (AllSubmissionsTo subreddit sort age total net).1.length
        = (total.toNat + 99) / 100 ∧
    ∃ res, (AllSubmissionsTo subreddit sort age total net).2 = .ok res ∧
      res.length = 100 * ((total.toNat + 99) / 100) ∧ total ≤ (res.length : Int) := by
  have htot100 : (100 : Int) < total := by
    simpa [DefaultSliceSize] using htotal
  unfold AllSubmissionsTo getAllSubmissions
  rw [if_neg (by omega)]
  have hfull := pageFnTo_full subreddit sort age net hsub hnet
  have h := loop_full_pages _ total hfull total.toNat 0 [] ""
    (by simp; omega) (by simp)
  simp only [List.length_nil, Nat.sub_zero, Nat.zero_add] at h
  obtain ⟨hlog, res, hres, hlen⟩ := h
  refine ⟨hlog, res, hres, ?_, ?_⟩
  · omega
  · omega

/-- C1 counterexample: with `total = 150` and a never-exhausting listing,
the code issues 2 requests (as the claim says) but the returned
concatenation has 200 records — not 150 and not less than 150: the claim
that the length equals `total` (or less) is false. -/
theorem C1_counterexample :
    (AllSubmissionsTo "golang" "top" "week" 150 netFull).1.length = 2 ∧
    Except.map List.length (AllSubmissionsTo "golang" "top" "week" 150 netFull).2
      = .ok 200 ∧
    (200 : Nat) ≠ 150 ∧ ¬((200 : Nat) ≤ 150) := by
  have hnet : ∀ i opts, ∃ env, netFull i opts = .ok env ∧ env.data.children.length = 100 :=
    fun i opts => ⟨envFull, rfl, by simp [envFull]⟩
  have hfull := pageFnTo_full "golang" "top" "week" netFull (by decide) hnet
  have hloop : AllSubmissionsTo "golang" "top" "week" 150 netFull
      = getAllSubmissionsLoop
          (fun i opts => SubmissionsTo "golang" "top" "week" opts (netFull i opts))
          150 0 [] "" := by
    unfold AllSubmissionsTo getAllSubmissions
    rw [if_neg (by decide)]
  have h := loop_full_pages _ 150 hfull 150 0 [] "" (by simp) (by simp)
  simp only [List.length_nil, Nat.sub_zero, Nat.zero_add] at h
  obtain ⟨hlog, res, hres, hlen⟩ := h
  rw [hloop]
  refine ⟨by rw [hlog]; decide, ?_, by decide, by decide⟩
  rw [hres]
  simp only [Except.map]
  rw [hlen]
  simp only [Except.ok.injEq]
  decide

/-- C1 witness: `total = 250` with full pages: 3 requests and 300
records. -/
theorem C1_witness :
    (AllSubmissionsTo "golang" "top" "week" 250 netFull).1.length
        = ((250 : Int).toNat + 99) / 100 ∧
    ∃ res, (AllSubmissionsTo "golang" "top" "week" 250 netFull).2 = .ok res ∧
      res.length = 100 * (((250 : Int).toNat + 99) / 100) ∧
      (250 : Int) ≤ (res.length : Int) :=
  C1_pagination_full_pages "golang" "top" "week" 250 netFull (by decide) (by decide)
    (fun i opts => ⟨envFull, rfl, by simp [envFull]⟩)

/-- C2: for every `total` at most the page size (`DefaultSliceSize`,
which is 100), `AllSubmissionsTo` issues exactly one page request, with
`limit = total`, and on a successful page returns its records directly —
the pagination loop is never entered. -/
theorem C2_single_request (subreddit : String) (sort : PopularitySort) (age : AgeSort)
    (total : Int) (net : ListingNet) (htotal : total ≤ DefaultSliceSize) :
    DefaultSliceSize = 100 ∧
    (AllSubmissionsTo subreddit sort age total net).1 = [{ limit := total }] ∧
    ∀ env, subreddit.length ≠ 0 → net 0 { limit := total } = .ok env →
      (AllSubmissionsTo subreddit sort age total net).2
        = .ok (env.data.children.map (fun child => child.data)) := by
  unfold AllSubmissionsTo getAllSubmissions
  rw [if_pos htotal]
  refine ⟨rfl, ?_, ?_⟩
  · rcases h : SubmissionsTo subreddit sort age { limit := total } (net 0 { limit := total })
      with e | p <;> simp [h]
  · intro env hsub hnet
    have h : SubmissionsTo subreddit sort age { limit := total } (net 0 { limit := total })
        = .ok (env.data.children.map (fun child => child.data),
               { before := env.data.before, after := env.data.after }) := by
      rw [hnet]
      simp [SubmissionsTo, hsub]
    simp [h]

/-- C2 witness: `total = 5` against a five-child envelope: one request
with `limit = 5`, five records returned. -/
theorem C2_witness :
    (AllSubmissionsTo "golang" "top" "week" 5 netFive).1 = [{ limit := 5 }] ∧
    (AllSubmissionsTo "golang" "top" "week" 5 netFive).2
      = .ok (List.replicate 5 (none : Option Submission)) := by
  have h := C2_single_request "golang" "top" "week" 5 netFive (by decide)
  refine ⟨h.2.1, ?_⟩
  rw [h.2.2 envFive (by decide) rfl]
  simp [envFive, List.map_replicate]

/-- C3: the pagination loop of `getAllSubmissions` terminates for every
`total`: at most `max 1 total` page requests are issued, and every
request other than the last was answered with a non-empty page — the
loop stops at the first empty page (or error), however large `total`
is. -/
theorem C3_loop_terminates (fn : PageFn) (total : Int) :
    (getAllSubmissions fn total).1.length ≤ max 1 total.toNat ∧
    ∀ i, i + 1 < (getAllSubmissions fn total).1.length →
      ∃ p s, fn i ((getAllSubmissions fn total).1.getD i {}) = .ok (p, s) ∧ p ≠ [] := by
  by_cases htotal : total ≤ DefaultSliceSize
  · have hlen : (getAllSubmissions fn total).1.length = 1 := by
      unfold getAllSubmissions
      rw [if_pos htotal]
      rcases h : fn 0 { limit := total } with e | p <;> simp [h]
    constructor
    · rw [hlen]
      omega
    · intro i hi
      rw [hlen] at hi
      omega
  · have hloop : getAllSubmissions fn total = getAllSubmissionsLoop fn total 0 [] "" := by
      unfold getAllSubmissions
      rw [if_neg htotal]
    have htot100 : (100 : Int) < total := by
      simp [DefaultSliceSize] at htotal
      omega
    have h0 : ((([] : List (Option Submission))).length : Int) < total := by
      simp
      omega
    constructor
    · rw [hloop]
      have h := loop_length_le fn total total.toNat 0 [] "" h0 (by simp)
      simp only [List.length_nil, Nat.sub_zero] at h
      omega
    · intro i hi
      rw [hloop] at hi ⊢
      have h := loop_mid_ok fn total total.toNat 0 [] "" h0 (by simp) i hi
      simpa using h

/-- C3 witness: full pages at `total = 250`: the bound holds and the
first page request was answered with a non-empty page. -/
theorem C3_witness :
    (getAllSubmissions fnFull 250).1.length ≤ max 1 (250 : Int).toNat ∧
    ∃ p s, fnFull 0 ((getAllSubmissions fnFull 250).1.getD 0 {}) = .ok (p, s) ∧ p ≠ [] := by
  have hfull : ∀ i opts, ∃ page slice, fnFull i opts = .ok (page, slice) ∧ page.length = 100 :=
    fun i opts => ⟨List.replicate 100 none, { after := "t3_next", before := "" }, rfl, by simp⟩
  have hloop : getAllSubmissions fnFull 250 = getAllSubmissionsLoop fnFull 250 0 [] "" := by
    unfold getAllSubmissions
    rw [if_neg (by decide)]
  have hlen := (loop_full_pages fnFull 250 hfull 250 0 [] "" (by simp) (by simp)).1
  simp only [List.length_nil, Nat.sub_zero] at hlen
  have hgt : 0 + 1 < (getAllSubmissions fnFull 250).1.length := by
    rw [hloop, hlen]
    decide
  exact ⟨(C3_loop_terminates fnFull 250).1, (C3_loop_terminates fnFull 250).2 0 hgt⟩

/-- C4 (amended): before the request, `doGetRequest` triggers a
synchronous refresh exactly when `now + SAFETY_MARGIN > expiry` — the
comparison is strict (`Expiry.Before(now+5s)`), so a token expiring
exactly at `now + 5s` is not refreshed, contrary to the claimed `>=`
condition; when no refresh is triggered the client state is untouched. -/
theorem C4_expiry_guard {α : Type} (c : ReadOnlyRedditClient) (now : Int)
    (rt : TokenResponse) (resp : ApiResponse) (um : List Char → Except String α) :
    ((doGetRequest c now rt resp um).1 = true ↔ c.token.expiry < now + safetyMarginNs) ∧
    ((doGetRequest c now rt resp um).1 = false → (doGetRequest c now rt resp um).2.1 = c) := by
  constructor
  · rw [doGetRequest_fst]
    simp [timeBefore]
  · intro h
    rw [doGetRequest_fst] at h
    exact doGetRequest_not_expiring c now rt resp um h

/-- C4 counterexample: with `expiry = now + 5s` exactly, the claimed
condition `now + margin >= expiry` holds, yet no refresh is triggered. -/
theorem C4_counterexample :
    (0 : Int) + safetyMarginNs ≥ clientBoundary.token.expiry ∧
    (doGetRequest clientBoundary 0 ({} : TokenResponse) ({} : ApiResponse)
        jsonUnmarshal).1 = false := by
  constructor
  · decide
  · rw [doGetRequest_fst]
    decide

/-- C4 witness: a fresh token triggers no refresh and the client state is
unchanged. -/
theorem C4_witness :
    ((doGetRequest clientFresh 0 ({} : TokenResponse) ({} : ApiResponse)
        jsonUnmarshal).1 = true ↔ clientFresh.token.expiry < 0 + safetyMarginNs) ∧
    (doGetRequest clientFresh 0 ({} : TokenResponse) ({} : ApiResponse)
        jsonUnmarshal).2.1 = clientFresh :=
  ⟨(C4_expiry_guard clientFresh 0 {} {} jsonUnmarshal).1,
   (C4_expiry_guard clientFresh 0 {} {} jsonUnmarshal).2
     (by rw [doGetRequest_fst]; decide)⟩

/-- C5: a refresh with an empty stored refresh token fails with the
no-refresh-token error, issues no token-endpoint request, and leaves the
client unchanged — the error is produced before any request is built. -/
theorem C5_refresh_without_token (c : ReadOnlyRedditClient) (now : Int)
    (resp : TokenResponse) (h : c.token.refreshToken = "") :
    refreshLoginAuth c now resp
      = ([], c, some "oauth2: token expired and refresh token is not set") := by
  unfold refreshLoginAuth
  rw [if_pos (by rw [h]; rfl)]

/-- C5 witness. -/
theorem C5_witness :
    refreshLoginAuth clientNoRefresh 0 {}
      = ([], clientNoRefresh, some "oauth2: token expired and refresh token is not set") :=
  C5_refresh_without_token clientNoRefresh 0 {} rfl

/-- C6: a successfully decoded listing yields exactly one record per
envelope child, in the envelope order, together with the cursor pair
copied from the envelope fields. -/
theorem C6_envelope_unwrap (subreddit : String) (sort : PopularitySort) (age : AgeSort)
    (params : ListingOptions) (env : Envelope) (hsub : subreddit.length ≠ 0) :
    SubmissionsTo subreddit sort age params (.ok env)
      = .ok (env.data.children.map (fun child => child.data),
             { after := env.data.after, before := env.data.before }) ∧
    (env.data.children.map (fun child => child.data)).length
      = env.data.children.length := by
  constructor
  · simp [SubmissionsTo, hsub]
  · exact List.length_map _ _

/-- C6 witness: five children and `after = "t3_abc"` yield five records
and cursor `(after = "t3_abc", before = "")`, as in the spec scenario. -/
theorem C6_witness :
    SubmissionsTo "golang" "top" "week" { limit := 5 } (.ok envFive)
      = .ok (List.replicate 5 (none : Option Submission),
             { after := "t3_abc", before := "" }) ∧
    (List.replicate 5 (none : Option Submission)).length = 5 := by
  have h := C6_envelope_unwrap "golang" "top" "week" { limit := 5 } envFive (by decide)
  constructor
  · rw [h.1]
    simp [envFive, List.map_replicate]
  · simp

/-- C7: when a successful refresh-grant response carries an empty
`refresh_token`, the token stored by the session keeps the
previously-used refresh token value instead of the empty one. -/
theorem C7_refresh_token_retained (c : ReadOnlyRedditClient) (now : Int)
    (resp : TokenResponse) (tj : TokenAsJSON)
    (hrt : c.token.refreshToken.length ≠ 0)
    (hst : ¬(resp.statusCode < 200 ∨ 299 < resp.statusCode))
    (hct : resp.contentType = .ok "application/json")
    (hbody : resp.body = .ok tj)
    (hempty : tj.refreshToken = "")
    (hat : tj.accessToken.length ≠ 0) :
    (refreshLoginAuth c now resp).2.2 = none ∧
    (refreshLoginAuth c now resp).2.1.token.refreshToken = c.token.refreshToken := by
  unfold refreshLoginAuth
  rw [if_neg hrt]
  simp only [retrieveTokenAndCookie_empty_refresh _ now resp tj hst hct hbody hempty hat]
  exact ⟨trivial, rfl⟩

/-- C7 witness. -/
theorem C7_witness :
    (refreshLoginAuth clientOldRefresh 0 respNoRefreshToken).2.2 = none ∧
    (refreshLoginAuth clientOldRefresh 0 respNoRefreshToken).2.1.token.refreshToken
      = clientOldRefresh.token.refreshToken :=
  C7_refresh_token_retained clientOldRefresh 0 respNoRefreshToken
    { accessToken := "new", tokenType := "bearer", refreshToken := "", expiresIn := 3600 }
    (by decide) (by decide) rfl rfl rfl (by decide)

/-- C8 (amended): bodies are read through a 1 MiB-capped reader, so the
outcome of a validated request is exactly the JSON decoding of the body
truncated to its first 1 MiB — an oversized body is silently truncated,
not rejected; the request fails only if the truncated prefix fails to
decode. -/
theorem C8_truncated_decode {α : Type} (c : ReadOnlyRedditClient) (now : Int)
    (rt : TokenResponse) (resp : ApiResponse) (um : List Char → Except String α)
    (hexp : timeBefore c.token.expiry (now + safetyMarginNs) = false)
    (hst : ¬(resp.statusCode < 200 ∨ 299 < resp.statusCode))
    (hct : resp.contentType = Except.ok "application/json")
    (hgz : resp.bodyGzipOk = true) :
    (doGetRequest c now rt resp um).2.2 = um (resp.body.take (1 <<< 20)) :=
  doGetRequest_decode c now rt resp um hexp hst hct hgz

/-- C8 counterexample: a response body longer than 1 MiB, invalid as a
whole, whose first 1 MiB is valid JSON: the request succeeds with the
silently truncated prefix instead of failing with a hard error. -/
theorem C8_counterexample :
    (1 <<< 20) < oversBody.length ∧
    jsonValid oversBody = false ∧
    (doGetRequest clientFresh 0 ({} : TokenResponse) { body := oversBody }
        jsonUnmarshal).2.2
      = .ok (List.replicate (oneMiB - 2) ' ' ++ ['{', '}']) := by
  refine ⟨oversBody_length, jsonValid_oversBody, ?_⟩
  rw [doGetRequest_decode clientFresh 0 {} { body := oversBody } jsonUnmarshal
    (by decide) (by decide) rfl rfl]
  show jsonUnmarshal (oversBody.take (1 <<< 20)) = _
  rw [oversBody_take]
  unfold jsonUnmarshal
  rw [jsonValid_ws_braces]
  simp

/-- C8 witness: a small valid body decodes unchanged through the cap. -/
theorem C8_witness :
    (doGetRequest clientFresh 0 ({} : TokenResponse) { body := ['{', '}'] }
        jsonUnmarshal).2.2
      = jsonUnmarshal ((['{', '}'] : List Char).take (1 <<< 20)) :=
  C8_truncated_decode clientFresh 0 {} { body := ['{', '}'] } jsonUnmarshal
    (by decide) (by decide) rfl rfl

/-- C9: `Token` and `Cookie` are replaced, together, exactly when token
retrieval succeeds; on any error from the token endpoint or its decoding
both fields are left exactly as they were, for login and refresh alike. -/
theorem C9_replace_wholesale (c : ReadOnlyRedditClient) (now : Int) (resp : TokenResponse) :
    ((loginAuth c now resp).2 ≠ none → (loginAuth c now resp).1 = c) ∧
    ((loginAuth c now resp).2 = none → ∃ t k,
        retrieveTokenAndCookie [("grant_type", "client_credentials")] now resp
          = .ok (t, k) ∧
        (loginAuth c now resp).1 = { c with token := t, cookie := k }) ∧
    ((refreshLoginAuth c now resp).2.2 ≠ none → (refreshLoginAuth c now resp).2.1 = c) ∧
    ((refreshLoginAuth c now resp).2.2 = none → ∃ t k,
        retrieveTokenAndCookie [("grant_type", "refresh_token"),
          ("refresh_token", c.token.refreshToken)] now resp = .ok (t, k) ∧
        (refreshLoginAuth c now resp).2.1 = { c with token := t, cookie := k }) := by
  refine ⟨?_, ?_, ?_, ?_⟩
  · intro h
    unfold loginAuth at *
    rcases hr : retrieveTokenAndCookie [("grant_type", "client_credentials")] now resp
      with e | ⟨t, k⟩ <;> simp [hr] at h ⊢
  · intro h
    unfold loginAuth at *
    rcases hr : retrieveTokenAndCookie [("grant_type", "client_credentials")] now resp
      with e | ⟨t, k⟩ <;> simp [hr] at h ⊢
  · intro h
    unfold refreshLoginAuth at *
    by_cases hrt : c.token.refreshToken.length = 0
    · simp [hrt] at h ⊢
    · rcases hr : retrieveTokenAndCookie [("grant_type", "refresh_token"),
          ("refresh_token", c.token.refreshToken)] now resp
        with e | ⟨t, k⟩ <;> simp [hrt, hr] at h ⊢
  · intro h
    unfold refreshLoginAuth at *
    by_cases hrt : c.token.refreshToken.length = 0
    · simp [hrt] at h
    · rcases hr : retrieveTokenAndCookie [("grant_type", "refresh_token"),
          ("refresh_token", c.token.refreshToken)] now resp
        with e | ⟨t, k⟩ <;> simp [hrt, hr] at h ⊢

/-- C9 witness: a failing token endpoint leaves the client unchanged for
both login and refresh; a succeeding one replaces token and cookie. -/
theorem C9_witness :
    (loginAuth clientOldRefresh 0 respBad).1 = clientOldRefresh ∧
    (refreshLoginAuth clientOldRefresh 0 respBad).2.1 = clientOldRefresh ∧
    (loginAuth clientOldRefresh 0 respGood).1
      = { clientOldRefresh with token := tokenGood, cookie := some cookieGood } := by
  refine ⟨(C9_replace_wholesale clientOldRefresh 0 respBad).1 (by decide),
          (C9_replace_wholesale clientOldRefresh 0 respBad).2.2.1 (by decide), ?_⟩
  obtain ⟨t, k, ht, hcl⟩ := (C9_replace_wholesale clientOldRefresh 0 respGood).2.1 (by decide)
  have he : retrieveTokenAndCookie [("grant_type", "client_credentials")] 0 respGood
      = .ok (tokenGood, some cookieGood) := rfl
  rw [ht] at he
  have hpair := Except.ok.inj he
  have h1 : t = tokenGood := congrArg Prod.fst hpair
  have h2 : k = some cookieGood := congrArg Prod.snd hpair
  rw [hcl, h1, h2]

/-- C10: when a page request fails after earlier pages were accumulated,
both aggregate operations return that error alone — the previously
collected records are discarded (`return nil, err`) — after `k + 1`
requests. -/
theorem C10_error_discards_partial (subreddit author : String) (sort : PopularitySort)
    (age : AgeSort) (total : Int) (net : ListingNet) (e : String) (k : Nat)
    (hsub : subreddit.length ≠ 0) (hauth : author.length ≠ 0) (hk : 0 < k)
    (hok : ∀ i opts, i < k → ∃ env, net i opts = .ok env ∧ env.data.children.length = 100)
    (herr : ∀ i opts, k ≤ i → net i opts = .error e)
    (htotal : (100 : Int) * k < total) :
    ((AllSubmissionsTo subreddit sort age total net).1.length = k + 1 ∧
     (AllSubmissionsTo subreddit sort age total net).2 = .error e) ∧
    ((AllSubmissionsOf author sort age total net).1.length = k + 1 ∧
     (AllSubmissionsOf author sort age total net).2 = .error e) := by
  have htot100 : ¬ (total ≤ DefaultSliceSize) := by
    simp [DefaultSliceSize]
    have h1 : (1 : Int) ≤ (k : Int) := by exact_mod_cast hk
    nlinarith
  constructor
  · unfold AllSubmissionsTo getAllSubmissions
    rw [if_neg htot100]
    have hokTo : ∀ i opts, i < k → ∃ page slice,
        SubmissionsTo subreddit sort age opts (net i opts) = .ok (page, slice) ∧
        page.length = 100 := by
      intro i opts hi
      obtain ⟨env, hn, hlen⟩ := hok i opts hi
      exact ⟨env.data.children.map (fun child => child.data),
        { before := env.data.before, after := env.data.after },
        by rw [hn]; simp [SubmissionsTo, hsub],
        by simp [List.length_map, hlen]⟩
    have herrTo : ∀ i opts, k ≤ i →
        SubmissionsTo subreddit sort age opts (net i opts) = .error e := by
      intro i opts hi
      rw [herr i opts hi]
      simp [SubmissionsTo, hsub]
    have h := loop_error_at
      (fun i opts => SubmissionsTo subreddit sort age opts (net i opts))
      total k e hokTo herrTo k 0 [] "" (by omega) (by omega) (by simpa using htotal)
    simpa using h
  · unfold AllSubmissionsOf getAllSubmissions
    rw [if_neg htot100]
    have hokOf : ∀ i opts, i < k → ∃ page slice,
        SubmissionsOf author sort age opts (net i opts) = .ok (page, slice) ∧
        page.length = 100 := by
      intro i opts hi
      obtain ⟨env, hn, hlen⟩ := hok i opts hi
      exact ⟨env.data.children.map (fun child => child.data),
        { before := env.data.before, after := env.data.after },
        by rw [hn]; simp [SubmissionsOf, hauth],
        by simp [List.length_map, hlen]⟩
    have herrOf : ∀ i opts, k ≤ i →
        SubmissionsOf author sort age opts (net i opts) = .error e := by
      intro i opts hi
      rw [herr i opts hi]
      simp [SubmissionsOf, hauth]
    have h := loop_error_at
      (fun i opts => SubmissionsOf author sort age opts (net i opts))
      total k e hokOf herrOf k 0 [] "" (by omega) (by omega) (by simpa using htotal)
    simpa using h

/-- C10 witness: one full page then a failure, `total = 250`: both
operations issue 2 requests and return only the error. -/
theorem C10_witness :
    ((AllSubmissionsTo "golang" "top" "week" 250 netErrAfterOne).1.length = 2 ∧
     (AllSubmissionsTo "golang" "top" "week" 250 netErrAfterOne).2 = .error "boom") ∧
    ((AllSubmissionsOf "alice" "top" "week" 250 netErrAfterOne).1.length = 2 ∧
     (AllSubmissionsOf "alice" "top" "week" 250 netErrAfterOne).2 = .error "boom") := by
  have h := C10_error_discards_partial "golang" "alice" "top" "week" 250 netErrAfterOne
    "boom" 1 (by decide) (by decide) (by decide)
    (by
      intro i opts hi
      have hi0 : i = 0 := by omega
      subst hi0
      exact ⟨envFull, rfl, by simp [envFull]⟩)
    (by
      intro i opts hi
      unfold netErrAfterOne
      rw [if_neg (by omega)])
    (by decide)
  exact h

end RedditReadGo
